import Mathlib

/-!
Shallow embedding of `src/app.py` (delivery route optimization app).

The program orchestrates three provider operations (geocoding, an implicit
distance-matrix cost model, and a directions request), maintains per-operation
usage counters in the session state, reassembles the provider's optimized
waypoint order back onto the input address list, and derives a cost estimate
from the counters.

Modelling decisions:
* Collaborator calls (`gmaps.geocode`, `gmaps.directions`) are fields of a
  `Gmaps` record; a raising directions call is `Except.error`.
* `st.stop()` raises a control-flow exception that is not an ordinary
  `Exception` (modern Streamlit derives it from `BaseException`), so it is not
  caught by the `except Exception` block of `calculate_route`: it is modelled
  as the distinct outcome `CalcOutcome.stopped`, carrying the offending
  address shown by `st.error`.  A caught exception (the `return None` path)
  is `CalcOutcome.failed`.
* Session state (`st.session_state`) is threaded explicitly.
* Python floats in the cost computation are modelled as exact rationals.
-/

namespace RouteOptimize

/-- A geographic coordinate, as in `geocode_result[0]['geometry']['location']`. -/
structure Location where
  lat : ℚ
  lng : ℚ
  deriving DecidableEq, Repr

/-- One navigation step of a leg (`leg['steps']` entries). -/
structure Step where
  html_instructions : String
  distance_text : String
  deriving DecidableEq, Repr

/-- One traversed segment of the optimized route (`directions_result[0]['legs']` entries). -/
structure Leg where
  distance_text : String
  duration_text : String
  steps : List Step
  deriving DecidableEq, Repr

/-- One route candidate returned by the directions provider. -/
structure Route where
  waypoint_order : List Nat
  legs : List Leg
  deriving DecidableEq, Repr

/-- The `st.session_state.API_USAGE` counters. -/
structure ApiUsage where
  geocoding : Nat
  distanceMatrix : Nat
  directions : Nat
  deriving DecidableEq, Repr

/-- The dictionary returned by a successful `calculate_route`. -/
structure CalcResult where
  locations : List Location
  directions : List Route
  deriving DecidableEq, Repr

/-- The Streamlit session state used by the core logic. -/
structure SessionState where
  apiUsage : ApiUsage
  calculationResult : Option CalcResult
  deriving DecidableEq, Repr

/-- The Google-Maps client collaborator: `geocode` returns a (possibly empty)
candidate list, `directionsCall origin destination waypoints` either raises
(`Except.error`) or returns a route-candidate list. -/
structure Gmaps where
  geocode : String → List Location
  directionsCall : Location → Location → List Location → Except String (List Route)

/-- Outcome of `calculate_route`: a returned result dictionary, a caught
exception (`return None`), or a script abort via `st.stop()` naming the
unresolvable address. -/
inductive CalcOutcome where
  | ok (result : CalcResult)
  | failed
  | stopped (address : String)
  deriving DecidableEq, Repr

/-- The geocoding loop of `calculate_route` (lines 57-65): for each address in
order, one geocode call and one Geocoding counter increment; an empty candidate
list aborts with the offending address, otherwise the first candidate's
location is appended. -/
def resolveLoop (gmaps : Gmaps) : List String → ApiUsage → List Location →
    ApiUsage × Except String (List Location)
  | [], u, acc => (u, .ok acc)
  | addr :: rest, u, acc =>
    let u1 := { u with geocoding := u.geocoding + 1 }
    match gmaps.geocode addr with
    | [] => (u1, .error addr)
    | loc :: _ => resolveLoop gmaps rest u1 (acc ++ [loc])

/-- Function `calculate_route` (lines 53-89): resolve all addresses, add the
`N * (N - 1)` distance-matrix elements, issue the directions request with
`locations[0]` as origin, `locations[-1]` as destination and `locations[1:-1]`
as waypoints, and count one Directions unit on completion.  An exception inside
the `try` block (the indexing error on an empty list, or a raising directions
call) yields `failed` (`return None`); `st.stop()` yields `stopped`. -/
def calculate_route (gmaps : Gmaps) (u : ApiUsage) (addresses : List String) :
    ApiUsage × CalcOutcome :=
  match resolveLoop gmaps addresses u [] with
  | (u1, .error addr) => (u1, .stopped addr)
  | (u1, .ok locations) =>
    let n := addresses.length
    let u2 := { u1 with distanceMatrix := u1.distanceMatrix + n * (n - 1) }
    match locations with
    | [] => (u2, .failed)
    | l0 :: rest =>
      match gmaps.directionsCall l0 (rest.getLastD l0) rest.dropLast with
      | .error _ => (u2, .failed)
      | .ok routes =>
        ({ u2 with directions := u2.directions + 1 },
         .ok { locations := l0 :: rest, directions := routes })

/-- The button handler of `main` (lines 155-157):
`st.session_state.calculation_result = calculate_route(addresses)`.  Counter
increments happen in place inside `calculate_route`, so they persist in every
outcome; the assignment itself is skipped when the script run was stopped. -/
def press_calculate (gmaps : Gmaps) (s : SessionState) (addresses : List String) :
    SessionState :=
  match calculate_route gmaps s.apiUsage addresses with
  | (u, .stopped _) => { s with apiUsage := u }
  | (u, .failed) => { apiUsage := u, calculationResult := none }
  | (u, .ok r) => { apiUsage := u, calculationResult := some r }

/-- The first candidate's location for an address, `geocode_result[0]` of
line 64 (junk default for the out-of-candidates case, which `calculate_route`
never reaches). -/
def firstLocation (gmaps : Gmaps) (addr : String) : Location :=
  (gmaps.geocode addr).headD ⟨0, 0⟩

/-- The coordinate list produced by a fully successful resolution. -/
def resolvedLocations (gmaps : Gmaps) (addresses : List String) : List Location :=
  addresses.map (firstLocation gmaps)

/-- The directions request `calculate_route` issues after a fully successful
resolution (origin `locations[0]`, destination `locations[-1]`, waypoints
`locations[1:-1]`). -/
def directionsOnResolved (gmaps : Gmaps) (addresses : List String) :
    Except String (List Route) :=
  match resolvedLocations gmaps addresses with
  | [] => .error "IndexError"
  | l0 :: rest => gmaps.directionsCall l0 (rest.getLastD l0) rest.dropLast

/-- The reassembled address sequence of `display_route_details` (lines
115-118): `[addresses[i + 1] for i in waypoint_order]`, then
`insert(0, addresses[0])`, then `append(addresses[-1])`. -/
def ordered_addresses (addresses : List String) (waypoint_order : List Nat) :
    List String :=
  (addresses.getD 0 "" :: waypoint_order.map (fun i => addresses.getD (i + 1) ""))
    ++ [addresses.getLastD ""]

/-- The leg pairing of `display_route_details` (lines 120-122): adjacent pairs
`zip(ordered[:-1], ordered[1:])` paired with `legs[idx]` by index. -/
def route_pairs (addresses : List String) (waypoint_order : List Nat)
    (legs : List Leg) : List (String × String × Leg) :=
  let oa := ordered_addresses addresses waypoint_order
  List.zipWith (fun p leg => (p.1, p.2, leg)) (oa.dropLast.zip (oa.drop 1)) legs

/-- Route assembly as a session-state transformer: the source code of
`display_route_details` neither reads nor writes `st.session_state`, so the
state passes through untouched and the output depends only on the arguments. -/
def assemble (s : SessionState) (addresses : List String)
    (waypoint_order : List Nat) (legs : List Leg) :
    SessionState × (List String × List (String × String × Leg)) :=
  (s, (ordered_addresses addresses waypoint_order,
       route_pairs addresses waypoint_order legs))

/-- The `API_COST` table (lines 37-41), in yen, as exact rationals. -/
def API_COST (api : String) : ℚ :=
  if api = "Geocoding API" then 0.5
  else if api = "Distance Matrix API" then 10.5
  else if api = "Directions API" then 10.5
  else 0

/-- Function `calculate_costs` (lines 133-143): iterate the usage counters in
insertion
order, scale the Distance-Matrix count by 1/1000, multiply by the unit price,
and accumulate the total.  Returns the per-API cost breakdown and the total. -/
def calculate_costs (u : ApiUsage) : List (String × ℚ) × ℚ :=
  let entries : List (String × Nat) :=
    [("Geocoding API", u.geocoding),
     ("Distance Matrix API", u.distanceMatrix),
     ("Directions API", u.directions)]
  entries.foldl
    (fun acc e =>
      let usage : ℚ := if e.1 = "Distance Matrix API" then (e.2 : ℚ) / 1000 else (e.2 : ℚ)
      let cost := usage * API_COST e.1
      (acc.1 ++ [(e.1, cost)], acc.2 + cost))
    ([], 0)

/-! Concrete collaborators and data used to evaluate the embedding. -/

/-- A sample coordinate. -/
def demoLoc : Location := ⟨35, 139⟩

/-- A sample leg. -/
def demoLeg : Leg := ⟨"1 km", "5 min", []⟩

/-- A sample route candidate with an empty waypoint order and one leg. -/
def demoRoute : Route := ⟨[], [demoLeg]⟩

/-- A sample previously stored successful result. -/
def demoPrevResult : CalcResult := ⟨[demoLoc], [demoRoute]⟩

/-- A session state holding a previously stored successful result. -/
def statePrev : SessionState := ⟨⟨0, 0, 0⟩, some demoPrevResult⟩

/-- A collaborator that resolves every address and answers every directions
request with one route. -/
def gmapsAll : Gmaps := ⟨fun _ => [demoLoc], fun _ _ _ => .ok [demoRoute]⟩

/-- A collaborator that resolves every address but whose directions call
raises. -/
def gmapsDirectionsRaise : Gmaps :=
  ⟨fun _ => [demoLoc], fun _ _ _ => .error "API error"⟩

/-- A collaborator that resolves every address but returns an empty
route-candidate list from the directions call. -/
def gmapsEmptyRoutes : Gmaps := ⟨fun _ => [demoLoc], fun _ _ _ => .ok []⟩

/-- A collaborator that resolves every address except
`"nonexistent-address"`, for which geocoding returns no candidates. -/
def gmapsC3 : Gmaps :=
  ⟨fun a => if a = "nonexistent-address" then [] else [demoLoc],
   fun _ _ _ => .ok [demoRoute]⟩

/-! Specification lemmas for the resolution loop and the full calculation. -/

/-- When every address in the list has at least one geocode candidate, the
resolution loop adds one Geocoding unit per address, leaves the other counters
alone, and appends the first candidate of each address in input order. -/
theorem resolveLoop_ok (gmaps : Gmaps) :
    ∀ (addrs : List String) (u : ApiUsage) (acc : List Location),
      (∀ a ∈ addrs, gmaps.geocode a ≠ []) →
      resolveLoop gmaps addrs u acc =
        ({ u with geocoding := u.geocoding + addrs.length },
         .ok (acc ++ addrs.map (firstLocation gmaps)))
  | [], u, acc, _ => by simp [resolveLoop]
  | addr :: rest, u, acc, h => by
    have haddr : gmaps.geocode addr ≠ [] := h addr (List.mem_cons_self _ _)
    obtain ⟨loc, tl, heq⟩ := List.exists_cons_of_ne_nil haddr
    have ih := resolveLoop_ok gmaps rest { u with geocoding := u.geocoding + 1 }
      (acc ++ [loc]) (fun a ha => h a (List.mem_cons_of_mem _ ha))
    simp only [resolveLoop, heq, ih, firstLocation, List.headD_cons, List.length_cons,
      List.map_cons, List.append_assoc, List.singleton_append, Prod.mk.injEq,
      ApiUsage.mk.injEq, and_true, true_and, Except.ok.injEq]
    omega

/-- When the addresses before `bad` are all resolvable and geocoding `bad`
returns no candidates, the resolution loop stops at `bad` after one Geocoding
unit per address up to and including `bad`, touching no other counter. -/
theorem resolveLoop_err (gmaps : Gmaps) :
    ∀ (pre : List String) (bad : String) (post : List String) (u : ApiUsage)
      (acc : List Location),
      (∀ a ∈ pre, gmaps.geocode a ≠ []) → gmaps.geocode bad = [] →
      resolveLoop gmaps (pre ++ bad :: post) u acc =
        ({ u with geocoding := u.geocoding + (pre.length + 1) }, .error bad)
  | [], bad, post, u, acc, _, hbad => by
    simp [resolveLoop, hbad]
  | p :: pre, bad, post, u, acc, h, hbad => by
    have hp : gmaps.geocode p ≠ [] := h p (List.mem_cons_self _ _)
    obtain ⟨loc, tl, heq⟩ := List.exists_cons_of_ne_nil hp
    have ih := resolveLoop_err gmaps pre bad post { u with geocoding := u.geocoding + 1 }
      (acc ++ [loc]) (fun a ha => h a (List.mem_cons_of_mem _ ha)) hbad
    simp only [List.cons_append, resolveLoop, heq, List.append_eq, ih, List.length_cons,
      Prod.mk.injEq, ApiUsage.mk.injEq, and_true, true_and, and_self]
    omega

/-- A fully successful run of `calculate_route`: all addresses resolvable and
the resulting directions request answered.  The counters gain exactly `N`
Geocoding units, `N * (N - 1)` DistanceComputation elements and one Directions
unit, and the result holds the resolved locations and the provider's routes. -/
theorem calculate_route_ok (gmaps : Gmaps) (u : ApiUsage) (addresses : List String)
    (routes : List Route)
    (hne : addresses ≠ [])
    (hres : ∀ a ∈ addresses, gmaps.geocode a ≠ [])
    (hdir : directionsOnResolved gmaps addresses = .ok routes) :
    calculate_route gmaps u addresses =
      ({ geocoding := u.geocoding + addresses.length,
         distanceMatrix := u.distanceMatrix + addresses.length * (addresses.length - 1),
         directions := u.directions + 1 },
       .ok { locations := resolvedLocations gmaps addresses, directions := routes }) := by
  obtain ⟨a, as, rfl⟩ := List.exists_cons_of_ne_nil hne
  have hloop := resolveLoop_ok gmaps (a :: as) u [] hres
  simp only [directionsOnResolved, resolvedLocations, List.map_cons] at hdir
  unfold calculate_route
  rw [hloop]
  simp only [List.nil_append, List.map_cons]
  rw [hdir]
  simp [resolvedLocations]

/-- C2: for every successful route calculation over an address list of length
`N` (all addresses resolvable, directions call succeeds), the usage counters
gain exactly `N` Geocoding units, `N * (N - 1)` DistanceComputation units and
one Directions unit. -/
theorem C2_success_usage (gmaps : Gmaps) (u : ApiUsage) (addresses : List String)
    (routes : List Route)
    (hres : ∀ a ∈ addresses, gmaps.geocode a ≠ [])
    (hdir : directionsOnResolved gmaps addresses = .ok routes) :
    (calculate_route gmaps u addresses).1 =
      { geocoding := u.geocoding + addresses.length,
        distanceMatrix := u.distanceMatrix + addresses.length * (addresses.length - 1),
        directions := u.directions + 1 } := by
  have hne : addresses ≠ [] := by
    intro h
    subst h
    simp [directionsOnResolved, resolvedLocations] at hdir
  rw [calculate_route_ok gmaps u addresses routes hne hres hdir]

/-- Witness for C2 at `N = 3`: counters go from zero to 3, 6, 1. -/
theorem C2_success_usage_witness :
    (calculate_route gmapsAll ⟨0, 0, 0⟩ ["a", "b", "c"]).1 = ⟨3, 6, 1⟩ :=
  C2_success_usage gmapsAll ⟨0, 0, 0⟩ ["a", "b", "c"] [demoRoute] (by decide) rfl

/-- C3: when the first `k` addresses are resolvable and address `k` has no
geocode candidates, `calculate_route` aborts naming that address, after exactly
`k + 1` Geocoding units, leaving the DistanceComputation and Directions
counters untouched; the routing provider is never consulted (the result does
not depend on `gmaps.directionsCall`). -/
theorem C3_address_not_found (gmaps : Gmaps) (u : ApiUsage) (pre : List String)
    (bad : String) (post : List String)
    (hpre : ∀ a ∈ pre, gmaps.geocode a ≠ []) (hbad : gmaps.geocode bad = []) :
    calculate_route gmaps u (pre ++ bad :: post) =
      ({ u with geocoding := u.geocoding + (pre.length + 1) }, .stopped bad) := by
  unfold calculate_route
  rw [resolveLoop_err gmaps pre bad post u [] hpre hbad]

/-- Witness for C3 on `["A", "nonexistent-address", "C"]`: exactly 2 Geocoding
units and an abort naming the failing address. -/
theorem C3_address_not_found_witness :
    calculate_route gmapsC3 ⟨0, 0, 0⟩ ["A", "nonexistent-address", "C"] =
      (⟨2, 0, 0⟩, .stopped "nonexistent-address") :=
  C3_address_not_found gmapsC3 ⟨0, 0, 0⟩ ["A"] "nonexistent-address" ["C"]
    (by decide) (by decide)

/-- C6: for every address list of length at least 2 in which every address is
resolvable, resolution returns exactly one coordinate per address, in input
order (the first geocode candidate of each address, with duplicates kept). -/
theorem C6_resolution_order (gmaps : Gmaps) (u : ApiUsage) (addresses : List String)
    (hlen : 2 ≤ addresses.length)
    (hres : ∀ a ∈ addresses, gmaps.geocode a ≠ []) :
    (resolveLoop gmaps addresses u []).2 =
      .ok (addresses.map (firstLocation gmaps)) ∧
    (addresses.map (firstLocation gmaps)).length = addresses.length := by
  rw [resolveLoop_ok gmaps addresses u [] hres]
  simp

/-- Witness for C6 on two identical address strings: both occurrences are kept
and resolved in order. -/
theorem C6_resolution_order_witness :
    (resolveLoop gmapsAll ["a", "a"] ⟨0, 0, 0⟩ []).2 =
      .ok (["a", "a"].map (firstLocation gmapsAll)) ∧
    (["a", "a"].map (firstLocation gmapsAll)).length = 2 :=
  C6_resolution_order gmapsAll ⟨0, 0, 0⟩ ["a", "a"] (by decide) (by decide)

/-- C9: the length-at-least-2 precondition is not enforced.  For a single
resolvable address, `calculate_route` records one Geocoding unit, adds
`1 * (1 - 1) = 0` DistanceComputation units, and issues one directions request
with the address's coordinate as both origin and destination and an empty
waypoint list, recording one Directions unit when it completes. -/
theorem C9_single_address (gmaps : Gmaps) (u : ApiUsage) (a : String)
    (loc : Location) (tl : List Location) (routes : List Route)
    (hgeo : gmaps.geocode a = loc :: tl)
    (hdir : gmaps.directionsCall loc loc [] = .ok routes) :
    calculate_route gmaps u [a] =
      ({ u with geocoding := u.geocoding + 1, directions := u.directions + 1 },
       .ok { locations := [loc], directions := routes }) := by
  unfold calculate_route
  simp only [resolveLoop, hgeo, List.nil_append, List.length_cons, List.length_nil,
    List.getLastD_nil, List.dropLast_nil]
  rw [hdir]
  simp

/-- Witness for C9: one address, counters end at 1, 0, 1. -/
theorem C9_single_address_witness :
    calculate_route gmapsAll ⟨0, 0, 0⟩ ["a"] =
      (⟨1, 0, 1⟩, .ok { locations := [demoLoc], directions := [demoRoute] }) :=
  C9_single_address gmapsAll ⟨0, 0, 0⟩ "a" demoLoc [] [demoRoute] rfl rfl

/-- C10: on the empty address list, `calculate_route` fails (the indexing
error building the directions request is caught, returning `None`) and every
usage counter is left unchanged. -/
theorem C10_empty_addresses (gmaps : Gmaps) (u : ApiUsage) :
    calculate_route gmaps u [] = (u, .failed) := by
  simp [calculate_route, resolveLoop]

/-- C4 counterexample: a directions failure on a fresh request does NOT leave
the previously stored successful result untouched — `calculate_route` returns
`None` and the button handler stores it, so the prior result is replaced by
`none`. -/
theorem C4_counterexample :
    (calculate_route gmapsDirectionsRaise statePrev.apiUsage ["x", "y"]).2 =
      CalcOutcome.failed ∧
    statePrev.calculationResult = some demoPrevResult ∧
    (press_calculate gmapsDirectionsRaise statePrev ["x", "y"]).calculationResult = none := by
  refine ⟨rfl, rfl, rfl⟩

/-- C4 amended: the stored result after pressing the button is `none` when
`calculate_route` caught a failure (replacing any prior result), the new result
on success, and only on a geocoding abort (`st.stop`) is the previously stored
result left unchanged. -/
theorem C4_result_state (gmaps : Gmaps) (s : SessionState) (addresses : List String) :
    (press_calculate gmaps s addresses).calculationResult =
      match (calculate_route gmaps s.apiUsage addresses).2 with
      | .stopped _ => s.calculationResult
      | .failed => none
      | .ok r => some r := by
  unfold press_calculate
  rcases h : calculate_route gmaps s.apiUsage addresses with ⟨u, o⟩
  cases o <;> simp

/-- C7 counterexample: an empty route-candidate list from the directions call
is NOT detected as a failure — `calculate_route` succeeds, increments the
Directions counter, and the empty result is stored. -/
theorem C7_counterexample :
    calculate_route gmapsEmptyRoutes ⟨0, 0, 0⟩ ["x"] =
      (⟨1, 0, 1⟩, .ok { locations := [demoLoc], directions := [] }) ∧
    (press_calculate gmapsEmptyRoutes statePrev ["x"]).calculationResult =
      some { locations := [demoLoc], directions := [] } := by
  refine ⟨rfl, rfl⟩

/-- C7 amended: when the directions provider call raises (after a fully
successful resolution of a nonempty address list), `calculate_route` fails
with the caught-exception outcome (`return None`), keeping the Geocoding and
DistanceComputation increments already recorded and leaving the Directions
counter untouched; an empty candidate list, by contrast, is treated as
success. -/
theorem C7_directions_failure (gmaps : Gmaps) (u : ApiUsage)
    (addresses : List String) (e : String)
    (hres : ∀ a ∈ addresses, gmaps.geocode a ≠ [])
    (hdir : directionsOnResolved gmaps addresses = .error e) :
    calculate_route gmaps u addresses =
      ({ u with geocoding := u.geocoding + addresses.length,
                distanceMatrix :=
                  u.distanceMatrix + addresses.length * (addresses.length - 1) },
       .failed) := by
  rcases addresses with _ | ⟨a, as⟩
  · simp [calculate_route, resolveLoop]
  · have hloop := resolveLoop_ok gmaps (a :: as) u [] hres
    simp only [directionsOnResolved, resolvedLocations, List.map_cons] at hdir
    unfold calculate_route
    rw [hloop]
    simp only [List.nil_append, List.map_cons]
    rw [hdir]

/-- Witness for C7 amended: two addresses, a raising directions call; counters
end at 2, 2, 0 and the outcome is the caught failure. -/
theorem C7_directions_failure_witness :
    calculate_route gmapsDirectionsRaise ⟨0, 0, 0⟩ ["x", "y"] =
      (⟨2, 2, 0⟩, .failed) :=
  C7_directions_failure gmapsDirectionsRaise ⟨0, 0, 0⟩ ["x", "y"] "API error"
    (by decide) rfl

/-- C8: route assembly is pure and deterministic — the session state passes
through unchanged, the output does not depend on the session state, and a
second call with the same addresses, waypoint order and legs yields identical
output. -/
theorem C8_assemble_pure (s s' : SessionState) (addresses : List String)
    (waypoint_order : List Nat) (legs : List Leg) :
    (assemble s addresses waypoint_order legs).1 = s ∧
    (assemble s addresses waypoint_order legs).2 =
      (assemble s' addresses waypoint_order legs).2 ∧
    (assemble (assemble s addresses waypoint_order legs).1
        addresses waypoint_order legs).2 =
      (assemble s addresses waypoint_order legs).2 :=
  ⟨rfl, rfl, rfl⟩

/-- C5: the cost breakdown is `g * 0.5` yen for Geocoding,
`(d / 1000) * 10.5` yen for DistanceComputation and `r * 10.5` yen for
Directions, the total is their sum, and at `g = 3`, `d = 6`, `r = 1` the total
is `12.063` yen. -/
theorem C5_cost_formula :
    (∀ u : ApiUsage,
      calculate_costs u =
        ([("Geocoding API", (u.geocoding : ℚ) * 0.5),
          ("Distance Matrix API", ((u.distanceMatrix : ℚ) / 1000) * 10.5),
          ("Directions API", (u.directions : ℚ) * 10.5)],
         (u.geocoding : ℚ) * 0.5 + ((u.distanceMatrix : ℚ) / 1000) * 10.5
           + (u.directions : ℚ) * 10.5)) ∧
    (calculate_costs ⟨3, 6, 1⟩).2 = 12.063 := by
  constructor
  · intro u
    simp [calculate_costs, API_COST]
  · simp [calculate_costs, API_COST]
    norm_num

/-- Positional lookup mapped over `range (length - 1)` recovers `dropLast`. -/
theorem map_getD_range {α : Type _} (l : List α) (d : α) :
    (List.range (l.length - 1)).map (fun i => l.getD i d) = l.dropLast := by
  apply List.ext_getElem
  · simp
  · intro n h1 h2
    have hn : n < l.length := by
      have := l.length_dropLast
      omega
    simp [List.getElem_map, List.getElem_range, List.getD_eq_getElem l d hn,
      List.getElem_dropLast, List.getElem?_eq_getElem hn]

/-- C1: for every address list of length at least 2 and every waypoint order
that is a permutation of `{0, …, N - 3}`, the assembled sequence has length
`N`, keeps the original first and last addresses in place, and is a
permutation of the input address list. -/
theorem C1_assemble_properties (addresses : List String) (wo : List Nat)
    (hlen : 2 ≤ addresses.length)
    (hperm : wo.Perm (List.range (addresses.length - 2))) :
    (ordered_addresses addresses wo).length = addresses.length ∧
    (ordered_addresses addresses wo).head? = addresses.head? ∧
    (ordered_addresses addresses wo).getLast? = addresses.getLast? ∧
    (ordered_addresses addresses wo).Perm addresses := by
  rcases addresses with _ | ⟨a, rest⟩
  · simp at hlen
  have hrest : rest ≠ [] := by
    intro h
    subst h
    simp at hlen
  have hrpos : 0 < rest.length := List.length_pos.mpr hrest
  have hlen2 : (a :: rest).length - 2 = rest.length - 1 := by
    simp
  rw [hlen2] at hperm
  have hfun : (fun i => (a :: rest).getD (i + 1) "") = (fun i => rest.getD i "") := by
    funext i
    simp [List.getD_cons_succ]
  have hwlen : wo.length = rest.length - 1 := by
    simpa using hperm.length_eq
  have hmap : (wo.map (fun i => (a :: rest).getD (i + 1) "")).Perm rest.dropLast := by
    rw [hfun, ← map_getD_range rest ""]
    exact hperm.map _
  have hlast : (a :: rest).getLastD "" = rest.getLast hrest := by
    rw [List.getLastD_cons, List.getLastD_eq_getLast?, List.getLast?_eq_getLast rest hrest]
    rfl
  refine ⟨?_, ?_, ?_, ?_⟩
  · simp only [ordered_addresses, List.length_append, List.length_cons, List.length_map,
      List.length_singleton, List.length_nil, hwlen]
    omega
  · simp [ordered_addresses]
  · simp only [ordered_addresses, List.getLast?_concat, hlast,
      List.getLast?_eq_getLast (a :: rest) (by simp), List.getLast_cons hrest]
  · simp only [ordered_addresses, List.getD_cons_zero, List.cons_append]
    refine List.Perm.cons a ?_
    rw [hlast]
    have h6 := hmap.append_right [rest.getLast hrest]
    rwa [List.dropLast_append_getLast hrest] at h6

/-- Witness for C1 on four addresses with waypoint order `[1, 0]`. -/
theorem C1_assemble_properties_witness :
    (ordered_addresses ["a", "b", "c", "d"] [1, 0]).length = 4 ∧
    (ordered_addresses ["a", "b", "c", "d"] [1, 0]).head? =
      (["a", "b", "c", "d"] : List String).head? ∧
    (ordered_addresses ["a", "b", "c", "d"] [1, 0]).getLast? =
      (["a", "b", "c", "d"] : List String).getLast? ∧
    (ordered_addresses ["a", "b", "c", "d"] [1, 0]).Perm ["a", "b", "c", "d"] :=
  C1_assemble_properties ["a", "b", "c", "d"] [1, 0] (by decide) (by decide)

end RouteOptimize
